import Mathlib

/-!
# Verification of the hkers authentication core

A shallow embedding, in Lean 4, of the authentication/session subsystem of
the hkers backend: the PKCE generator (`Service.GeneratePKCE`), the JWT
manager (`GenerateToken` / `ValidateToken` / `RefreshToken` over the
golang-jwt/v5 parsing semantics), the user directory service
(`GetOrCreateOIDCUser` over the sqlc queries), and the HTTP flow handlers
(`Callback`, `Logout`, `RefreshToken`).

Go machine integers are embedded as `Int`/`Nat` (with explicit `% 2 ^ 32`
where 32-bit wrap-around matters, namely inside SHA-256); fallible Go calls
return `Except`; the external collaborators the handlers talk to through
interfaces (OAuth2 code exchange, ID-token verification, the user store,
`url.Parse`) are fields of an environment record, exactly as the handlers
see them through their interface types.
-/

/-! ## Raw URL-safe base64 (Go `encoding/base64`, `RawURLEncoding`) -/

/-- The 64-character URL-safe base64 alphabet used by Go's
`base64.RawURLEncoding`. -/
def b64urlAlphabet : List Char :=
  ("ABCDEFGHIJKLMNOPQRSTUVWXYZabcdefghijklmnopqrstuvwxyz0123456789-_").toList

/-- The alphabet character for a six-bit group. -/
def sextetChar (n : Nat) : Char := b64urlAlphabet.getD n 'A'

/-- Index of a character in the base64url alphabet. -/
def sextetIndex (ch : Char) : Nat := b64urlAlphabet.indexOf ch

/-- Unpadded URL-safe base64 of a byte list (each byte `< 256`), exactly as
`base64.RawURLEncoding.EncodeToString`: three bytes become four characters,
a two-byte tail becomes three characters, a one-byte tail two, no `=` pad. -/
def rawURLEncode : List Nat → List Char
  | a :: b :: c :: rest =>
      sextetChar (a / 4) :: sextetChar (a % 4 * 16 + b / 16) ::
      sextetChar (b % 16 * 4 + c / 64) :: sextetChar (c % 64) :: rawURLEncode rest
  | [a, b] => [sextetChar (a / 4), sextetChar (a % 4 * 16 + b / 16), sextetChar (b % 16 * 4)]
  | [a] => [sextetChar (a / 4), sextetChar (a % 4 * 16)]
  | [] => []

/-- Decoder for unpadded URL-safe base64, the left inverse of
`rawURLEncode`; used to state that the encoding loses none of the
randomness it encodes. -/
def rawURLDecode : List Char → List Nat
  | s0 :: s1 :: s2 :: s3 :: rest =>
      (sextetIndex s0 * 4 + sextetIndex s1 / 16) ::
      (sextetIndex s1 % 16 * 16 + sextetIndex s2 / 4) ::
      (sextetIndex s2 % 4 * 64 + sextetIndex s3) :: rawURLDecode rest
  | [s0, s1, s2] =>
      [sextetIndex s0 * 4 + sextetIndex s1 / 16,
        sextetIndex s1 % 16 * 16 + sextetIndex s2 / 4]
  | [s0, s1] => [sextetIndex s0 * 4 + sextetIndex s1 / 16]
  | _ => []

theorem sextetIndex_sextetChar : ∀ n < 64, sextetIndex (sextetChar n) = n := by decide

theorem sextetChar_mem : ∀ n < 64, sextetChar n ∈ b64urlAlphabet := by decide

/-- Decoding inverts encoding on byte lists: the base64url form of the
random bytes determines the bytes. -/
theorem rawURLDecode_rawURLEncode :
    ∀ bs : List Nat, (∀ x ∈ bs, x < 256) → rawURLDecode (rawURLEncode bs) = bs
  | [], _ => rfl
  | [a], h => by
      have ha : a < 256 := h a (by simp)
      simp only [rawURLEncode, rawURLDecode]
      rw [sextetIndex_sextetChar _ (by omega), sextetIndex_sextetChar _ (by omega)]
      simp only [List.cons.injEq, and_true]
      omega
  | [a, b], h => by
      have ha : a < 256 := h a (by simp)
      have hb : b < 256 := h b (by simp)
      simp only [rawURLEncode, rawURLDecode]
      rw [sextetIndex_sextetChar _ (by omega), sextetIndex_sextetChar _ (by omega),
        sextetIndex_sextetChar _ (by omega)]
      simp only [List.cons.injEq, and_true]
      constructor
      · omega
      · omega
  | a :: b :: c :: d :: rest, h => by
      have ha : a < 256 := h a (by simp)
      have hb : b < 256 := h b (by simp)
      have hc : c < 256 := h c (by simp)
      have ih := rawURLDecode_rawURLEncode (d :: rest) (fun x hx => h x (by simp at hx ⊢; tauto))
      simp only [rawURLEncode, rawURLDecode]
      rw [sextetIndex_sextetChar _ (by omega), sextetIndex_sextetChar _ (by omega),
        sextetIndex_sextetChar _ (by omega), sextetIndex_sextetChar _ (by omega)]
      simp only [List.cons.injEq]
      refine ⟨by omega, by omega, by omega, ?_⟩
      exact ih
  | [a, b, c], h => by
      have ha : a < 256 := h a (by simp)
      have hb : b < 256 := h b (by simp)
      have hc : c < 256 := h c (by simp)
      simp only [rawURLEncode, rawURLDecode]
      rw [sextetIndex_sextetChar _ (by omega), sextetIndex_sextetChar _ (by omega),
        sextetIndex_sextetChar _ (by omega), sextetIndex_sextetChar _ (by omega)]
      simp only [List.cons.injEq, and_true]
      refine ⟨by omega, by omega, by omega⟩

/-- Length of the unpadded encoding: `⌈4n/3⌉` characters for `n` bytes. -/
theorem rawURLEncode_length :
    ∀ bs : List Nat, (rawURLEncode bs).length = (4 * bs.length + 2) / 3
  | [] => by simp [rawURLEncode]
  | [_] => by simp [rawURLEncode]
  | [_, _] => by simp [rawURLEncode]
  | [_, _, _] => by simp [rawURLEncode]
  | _ :: _ :: _ :: d :: rest => by
      have ih := rawURLEncode_length (d :: rest)
      simp only [rawURLEncode, List.length_cons] at ih ⊢
      omega

/-- Every character the encoder emits lies in the URL-safe alphabet. -/
theorem rawURLEncode_mem_alphabet :
    ∀ bs : List Nat, (∀ x ∈ bs, x < 256) → ∀ ch ∈ rawURLEncode bs, ch ∈ b64urlAlphabet
  | [], _ => by simp [rawURLEncode]
  | [a], h => by
      have ha : a < 256 := h a (by simp)
      simp only [rawURLEncode, List.mem_cons, List.not_mem_nil, or_false]
      rintro ch (rfl | rfl)
      · exact sextetChar_mem _ (by omega)
      · exact sextetChar_mem _ (by omega)
  | [a, b], h => by
      have ha : a < 256 := h a (by simp)
      have hb : b < 256 := h b (by simp)
      simp only [rawURLEncode, List.mem_cons, List.not_mem_nil, or_false]
      rintro ch (rfl | rfl | rfl)
      · exact sextetChar_mem _ (by omega)
      · exact sextetChar_mem _ (by omega)
      · exact sextetChar_mem _ (by omega)
  | a :: b :: c :: rest, h => by
      have ha : a < 256 := h a (by simp)
      have hb : b < 256 := h b (by simp)
      have hc : c < 256 := h c (by simp)
      have ih := rawURLEncode_mem_alphabet rest (fun x hx => h x (by simp [hx]))
      simp only [rawURLEncode, List.mem_cons]
      rintro ch (rfl | rfl | rfl | rfl | hmem)
      · exact sextetChar_mem _ (by omega)
      · exact sextetChar_mem _ (by omega)
      · exact sextetChar_mem _ (by omega)
      · exact sextetChar_mem _ (by omega)
      · exact ih ch hmem

/-! ## SHA-256 (FIPS 180-4, as Go `crypto/sha256`)

Words are `Nat` reduced mod `2 ^ 32`; the implementation is checked against
the standard test vectors (empty string, `abc`, the 56-byte two-block
message). -/

/-- Truncate to a 32-bit word. -/
def w32 (n : Nat) : Nat := n % 4294967296

/-- 32-bit right rotation. -/
def rotr32 (x n : Nat) : Nat := w32 (x / 2 ^ n + x % 2 ^ n * 2 ^ (32 - n))

/-- Logical right shift. -/
def shr32 (x n : Nat) : Nat := x / 2 ^ n

def smallSigma0 (x : Nat) : Nat := rotr32 x 7 ^^^ rotr32 x 18 ^^^ shr32 x 3

def smallSigma1 (x : Nat) : Nat := rotr32 x 17 ^^^ rotr32 x 19 ^^^ shr32 x 10

def bigSigma0 (x : Nat) : Nat := rotr32 x 2 ^^^ rotr32 x 13 ^^^ rotr32 x 22

def bigSigma1 (x : Nat) : Nat := rotr32 x 6 ^^^ rotr32 x 11 ^^^ rotr32 x 25

/-- SHA-256 choice function; the complement is taken inside 32 bits. -/
def chFn (x y z : Nat) : Nat := (x &&& y) ^^^ ((4294967295 - w32 x) &&& z)

def majFn (x y z : Nat) : Nat := (x &&& y) ^^^ (x &&& z) ^^^ (y &&& z)

/-- The 64 SHA-256 round constants (FIPS 180-4 §4.2.2, in decimal). -/
def sha256K : List Nat :=
  [1116352408, 1899447441, 3049323471, 3921009573, 961987163, 1508970993,
   2453635748, 2870763221, 3624381080, 310598401, 607225278, 1426881987,
   1925078388, 2162078206, 2614888103, 3248222580, 3835390401, 4022224774,
   264347078, 604807628, 770255983, 1249150122, 1555081692, 1996064986,
   2554220882, 2821834349, 2952996808, 3210313671, 3336571891, 3584528711,
   113926993, 338241895, 666307205, 773529912, 1294757372, 1396182291,
   1695183700, 1986661051, 2177026350, 2456956037, 2730485921, 2820302411,
   3259730800, 3345764771, 3516065817, 3600352804, 4094571909, 275423344,
   430227734, 506948616, 659060556, 883997877, 958139571, 1322822218,
   1537002063, 1747873779, 1955562222, 2024104815, 2227730452, 2361852424,
   2428436474, 2756734187, 3204031479, 3329325298]

/-- The initial hash state (FIPS 180-4 §5.3.3, in decimal). -/
def sha256InitH : List Nat :=
  [1779033703, 3144134277, 1013904242, 2773480762,
   1359893119, 2600822924, 528734635, 1541459225]

/-- Big-endian byte decomposition of a number into `k` bytes. -/
def natToBytesBE (k n : Nat) : List Nat :=
  (List.range k).map (fun i => n / 2 ^ (8 * (k - 1 - i)) % 256)

/-- The 16 big-endian message words of a 64-byte block. -/
def blockWords (block : List Nat) : List Nat :=
  (List.range 16).map (fun i =>
    block.getD (4 * i) 0 * 16777216 + block.getD (4 * i + 1) 0 * 65536 +
    block.getD (4 * i + 2) 0 * 256 + block.getD (4 * i + 3) 0)

/-- Message-schedule extension from 16 to 64 words. -/
def extendW (w : List Nat) : List Nat :=
  (List.range 48).foldl (fun w i =>
    w ++ [w32 (smallSigma1 (w.getD (i + 14) 0) + w.getD (i + 9) 0 +
      smallSigma0 (w.getD (i + 1) 0) + w.getD i 0)]) w

/-- One round of the compression function on the eight working variables. -/
def sha256Round (w : List Nat) (st : List Nat) (i : Nat) : List Nat :=
  match st with
  | [a, b, c, d, e, f, g, h] =>
      let t1 := w32 (h + bigSigma1 e + chFn e f g + sha256K.getD i 0 + w.getD i 0)
      let t2 := w32 (bigSigma0 a + majFn a b c)
      [w32 (t1 + t2), a, b, c, w32 (d + t1), e, f, g]
  | st => st

/-- Compression of one 64-byte block into the running hash state. -/
def sha256Compress (hs : List Nat) (block : List Nat) : List Nat :=
  let w := extendW (blockWords block)
  let fin := (List.range 64).foldl (sha256Round w) hs
  match hs, fin with
  | [h0, h1, h2, h3, h4, h5, h6, h7], [a, b, c, d, e, f, g, h] =>
      [w32 (h0 + a), w32 (h1 + b), w32 (h2 + c), w32 (h3 + d),
       w32 (h4 + e), w32 (h5 + f), w32 (h6 + g), w32 (h7 + h)]
  | _, _ => hs

/-- Split a byte list into 64-byte blocks. -/
def chunks64 (l : List Nat) : List (List Nat) :=
  if l.isEmpty then [] else l.take 64 :: chunks64 (l.drop 64)
termination_by l.length
decreasing_by
  rename_i hne
  simp only [List.isEmpty_iff] at hne
  have hpos : 0 < l.length := List.length_pos.mpr hne
  simp only [List.length_drop]
  omega

/-- SHA-256 padding: `0x80`, zeros to 56 mod 64, then the bit length as a
big-endian 64-bit number. -/
def sha256Pad (msg : List Nat) : List Nat :=
  msg ++ 128 :: List.replicate ((119 - msg.length % 64) % 64) 0 ++
    natToBytesBE 8 (8 * msg.length % 18446744073709551616)

/-- SHA-256 digest (32 bytes) of a byte list. -/
def sha256 (msg : List Nat) : List Nat :=
  ((chunks64 (sha256Pad msg)).foldl sha256Compress sha256InitH).map (natToBytesBE 4) |>.flatten

theorem natToBytesBE_length (k n : Nat) : (natToBytesBE k n).length = k := by
  simp [natToBytesBE]

theorem sha256Compress_length (hs block : List Nat) (h : hs.length = 8) :
    (sha256Compress hs block).length = 8 := by
  unfold sha256Compress
  simp only
  split
  · simp
  · exact h

theorem foldl_sha256Compress_length (blocks : List (List Nat)) :
    ∀ hs : List Nat, hs.length = 8 → (blocks.foldl sha256Compress hs).length = 8 := by
  induction blocks with
  | nil => intro hs h; simpa using h
  | cons b bs ih =>
      intro hs h
      simpa using ih _ (sha256Compress_length hs b h)

/-- A SHA-256 digest is 32 bytes. -/
theorem sha256_length (msg : List Nat) : (sha256 msg).length = 32 := by
  unfold sha256
  have h8 := foldl_sha256Compress_length (chunks64 (sha256Pad msg)) sha256InitH rfl
  generalize (chunks64 (sha256Pad msg)).foldl sha256Compress sha256InitH = hs at h8 ⊢
  simp only [List.length_flatten, List.map_map]
  have : (List.map (List.length ∘ natToBytesBE 4) hs) = List.map (fun _ => 4) hs := by
    refine List.map_congr_left ?_
    intro a _
    simp [natToBytesBE_length]
  rw [this, List.map_const']
  simp [List.sum_replicate, h8]

/-! ## PKCE generator (`Service.GeneratePKCE`, `Service.GenerateState`)

Go draws 32 bytes from `crypto/rand`; the randomness source is the
`randomBytes` argument here. The verifier is the raw URL-safe base64 of
those bytes and the challenge is the raw URL-safe base64 of the SHA-256 of
the verifier's UTF-8 bytes (the verifier is ASCII, so its UTF-8 bytes are
its character codes). -/

/-- UTF-8 bytes of an ASCII string (`[]byte(s)` in Go for ASCII `s`). -/
def strBytesASCII (s : String) : List Nat := s.data.map Char.toNat

/-- `Service.GeneratePKCE`: verifier and S256 challenge from the 32 random
bytes. -/
def GeneratePKCE (randomBytes : List Nat) : String × String :=
  let verifier := String.mk (rawURLEncode randomBytes)
  let challenge := String.mk (rawURLEncode (sha256 (strBytesASCII verifier)))
  (verifier, challenge)

/-- **C8.** For every 32-byte random input, `GeneratePKCE` returns a
challenge equal to the unpadded URL-safe base64 of the SHA-256 of the
verifier (PKCE S256), and a verifier that is the unpadded URL-safe base64
of the input: 43 characters long (hence ≥ 43), drawn from the URL-safe
alphabet, and losslessly encoding all 256 random bits (the input bytes are
recovered by `rawURLDecode`). -/
theorem generatePKCE_s256 (b : List Nat) (hlen : b.length = 32) (hb : ∀ x ∈ b, x < 256) :
    (GeneratePKCE b).2.data = rawURLEncode (sha256 (strBytesASCII (GeneratePKCE b).1)) ∧
    (GeneratePKCE b).1.data = rawURLEncode b ∧
    (GeneratePKCE b).1.data.length = 43 ∧ 43 ≤ (GeneratePKCE b).1.data.length ∧
    (∀ ch ∈ (GeneratePKCE b).1.data, ch ∈ b64urlAlphabet) ∧
    rawURLDecode (GeneratePKCE b).1.data = b := by
  have hlen43 : (rawURLEncode b).length = 43 := by
    rw [rawURLEncode_length, hlen]
  refine ⟨rfl, rfl, hlen43, hlen43.ge, ?_, ?_⟩
  · exact rawURLEncode_mem_alphabet b hb
  · exact rawURLDecode_rawURLEncode b hb

/-- Witness for C8 at the concrete all-zero 32-byte random input. -/
theorem generatePKCE_s256_witness :
    (List.replicate 32 0).length = 32 ∧
      rawURLDecode (GeneratePKCE (List.replicate 32 0)).1.data = List.replicate 32 0 :=
  ⟨by simp,
    (generatePKCE_s256 (List.replicate 32 0) (by simp)
      (by intro x hx; rw [List.eq_of_mem_replicate hx]; omega)).2.2.2.2.2⟩

/-! ## JWT manager (`internal/core/auth/jwt.go` over golang-jwt/v5)

A signed token is its header algorithm, its claims, and its signature. The
HMAC itself is embedded symbolically: `hmacSign alg key payload` is a
collision-free MAC value, and `verifySig` models `token.Method.Verify`
with a `[]byte` key — it succeeds exactly for HMAC-family methods whose
recomputed MAC matches (a non-HMAC method given a byte key fails with a
key-type error in Go).

golang-jwt/v5 `ParseWithClaims` runs in order: keyfunc, signature
verification, then claims validation (expiry `exp ≤ now` and not-before
`now < nbf` are both checked and joined; `iat` is not checked by default,
leeway is zero). `jwt.WithoutClaimsValidation` skips only the last step. -/

inductive JWTAlg
  | HS256 | HS384 | HS512 | RS256 | ES256 | noSig
deriving DecidableEq, Repr

/-- Whether the method is `*jwt.SigningMethodHMAC` (the type the keyfunc in
`ValidateToken` accepts). -/
def JWTAlg.isHMAC : JWTAlg → Bool
  | .HS256 | .HS384 | .HS512 => true
  | _ => false

/-- The claims of `jwt.go`: identity fields plus the registered temporal
claims populated by `GenerateToken` (`exp`, `iat`, `nbf`, in seconds). -/
structure JWTClaims where
  userID : Int
  email : String
  oidcSub : String
  username : String
  isActive : Bool
  exp : Nat
  iat : Nat
  nbf : Nat
deriving DecidableEq, Repr

/-- A MAC value, symbolically: the algorithm, key and payload it was
computed over. Distinct inputs give distinct MACs (ideal MAC). -/
structure MacSig where
  alg : JWTAlg
  key : String
  payload : JWTClaims
deriving DecidableEq, Repr

/-- Compute the (symbolic) HMAC of the encoded claims under a key. -/
def hmacSign (alg : JWTAlg) (key : String) (payload : JWTClaims) : MacSig :=
  ⟨alg, key, payload⟩

/-- A serialized JWT: header algorithm, claims, signature. -/
structure JWTToken where
  alg : JWTAlg
  claims : JWTClaims
  sig : MacSig
deriving DecidableEq, Repr

/-- `token.Method.Verify(signingString, sig, []byte(secret))`: succeeds
exactly when the header algorithm is an HMAC method and the signature is
the MAC of the claims under that algorithm and key. -/
def verifySig (tok : JWTToken) (key : String) : Bool :=
  tok.alg.isHMAC && decide (tok.sig = hmacSign tok.alg key tok.claims)

inductive JWTParseError
  | badKeyfunc
  | badSignature
  | invalidClaims (expired notYetValid : Bool)
deriving DecidableEq, Repr

/-- `errors.Is(err, jwt.ErrTokenExpired)` on a parse error. -/
def JWTParseError.isExpired : JWTParseError → Bool
  | .invalidClaims e _ => e
  | _ => false

/-- golang-jwt/v5 `ParseWithClaims`. `hmacKeyfunc` selects the keyfunc of
`ValidateToken` (which rejects non-HMAC methods) versus the keyfunc of the
refresh fallback (which returns the secret unconditionally);
`validateClaims` is false under `jwt.WithoutClaimsValidation`. -/
def parseWithClaims (hmacKeyfunc validateClaims : Bool) (secret : String) (now : Nat)
    (tok : JWTToken) : Except JWTParseError JWTToken :=
  if hmacKeyfunc && !tok.alg.isHMAC then .error .badKeyfunc
  else if !verifySig tok secret then .error .badSignature
  else
    let expired := decide (tok.claims.exp ≤ now)
    let nyv := decide (now < tok.claims.nbf)
    if validateClaims && (expired || nyv) then .error (.invalidClaims expired nyv)
    else .ok tok

/-- The errors `ValidateToken` can return: `ErrInvalidToken`,
`ErrExpiredToken`, and `errors.New("user account is not active")`. -/
inductive ValidateError
  | invalidToken
  | expiredToken
  | accountNotActive
deriving DecidableEq, Repr

structure JWTManager where
  secretKey : String
  tokenDuration : Nat
deriving Repr

/-- `JWTManager.GenerateToken`: claims with `exp = now + duration`,
`iat = nbf = now`, signed with HS256 under the manager's secret. -/
def JWTManager.GenerateToken (m : JWTManager) (now : Nat) (userID : Int)
    (email oidcSub username : String) (isActive : Bool) : JWTToken :=
  let claims : JWTClaims :=
    { userID := userID, email := email, oidcSub := oidcSub, username := username,
      isActive := isActive, exp := now + m.tokenDuration, iat := now, nbf := now }
  { alg := .HS256, claims := claims, sig := hmacSign .HS256 m.secretKey claims }

/-- `JWTManager.ValidateToken`: parse with the HMAC-checking keyfunc and
claims validation, map expiry to `ErrExpiredToken` and every other parse
error to `ErrInvalidToken`, then reject still-parsed claims whose
`is_active` is false. -/
def JWTManager.ValidateToken (m : JWTManager) (now : Nat) (tok : JWTToken) :
    Except ValidateError JWTClaims :=
  match parseWithClaims true true m.secretKey now tok with
  | .error e => if e.isExpired then .error .expiredToken else .error .invalidToken
  | .ok t => if !t.claims.isActive then .error .accountNotActive else .ok t.claims

inductive RefreshError
  | validateErr (e : ValidateError)
  | parseErr (e : JWTParseError)
deriving DecidableEq, Repr

/-- `JWTManager.RefreshToken`: validate; on success or on a pure-expiry
failure (re-parsing without claims validation, signature still checked)
mint a fresh token with the same identity claims; on any other validation
failure return the error. -/
def JWTManager.RefreshToken (m : JWTManager) (now : Nat) (tok : JWTToken) :
    Except RefreshError JWTToken :=
  match m.ValidateToken now tok with
  | .ok claims =>
      .ok (m.GenerateToken now claims.userID claims.email claims.oidcSub claims.username
        claims.isActive)
  | .error e =>
      if e = .expiredToken then
        match parseWithClaims false false m.secretKey now tok with
        | .error pe => .error (.parseErr pe)
        | .ok t =>
            .ok (m.GenerateToken now t.claims.userID t.claims.email t.claims.oidcSub
              t.claims.username t.claims.isActive)
      else .error (.validateErr e)

/-- Inversion for a successful parse: the signature verified, the keyfunc
(if HMAC-checking) saw an HMAC method, and (if claims were validated) the
token is inside its temporal window. -/
theorem parseWithClaims_ok_inv {kf vc : Bool} {secret : String} {now : Nat}
    {tok t : JWTToken} (h : parseWithClaims kf vc secret now tok = .ok t) :
    t = tok ∧ verifySig tok secret = true ∧ (kf = true → tok.alg.isHMAC = true) ∧
      (vc = true → now < tok.claims.exp ∧ tok.claims.nbf ≤ now) := by
  simp only [parseWithClaims] at h
  split at h
  · simp at h
  · split at h
    · simp at h
    · split at h
      · simp at h
      · rename_i h1 h2 h3
        simp only [Except.ok.injEq] at h
        refine ⟨h.symm, by simpa using h2, ?_, ?_⟩
        · intro hkf
          subst hkf
          simpa using h1
        · intro hvc
          subst hvc
          simp only [Bool.true_and, Bool.or_eq_true, not_or, decide_eq_true_eq,
            Bool.not_eq_true] at h3
          omega

/-- Concrete manager for counterexamples and witnesses. -/
def mSample : JWTManager := ⟨"topsecret", 3600⟩

/-- A set of active identity claims, expiring at 1000. -/
def claimsActiveSample : JWTClaims := ⟨7, "a@b.c", "sub7", "alice", true, 1000, 0, 0⟩

/-- The same claims signed with HS384 (an HMAC method that is not the
configured HS256) under the correct secret. -/
def tokHS384Sample : JWTToken :=
  ⟨.HS384, claimsActiveSample, hmacSign .HS384 "topsecret" claimsActiveSample⟩

/-- The same claims under an RS256 header. -/
def tokRS256Sample : JWTToken :=
  ⟨.RS256, claimsActiveSample, hmacSign .RS256 "topsecret" claimsActiveSample⟩

/-- Inactive-account claims, expiring at 50. -/
def claimsInactiveSample : JWTClaims := ⟨9, "i@b.c", "sub9", "bob", false, 50, 0, 0⟩

/-- A correctly signed HS256 token over the inactive claims. -/
def tokInactiveExpiredSample : JWTToken :=
  ⟨.HS256, claimsInactiveSample, hmacSign .HS256 "topsecret" claimsInactiveSample⟩

/-- Inversion for a parse error flagged as expiry: the signature verified
and the token really was expired. -/
theorem parseWithClaims_expired_inv {kf : Bool} {secret : String} {now : Nat}
    {tok : JWTToken} {e : JWTParseError}
    (h : parseWithClaims kf true secret now tok = .error e) (he : e.isExpired = true) :
    verifySig tok secret = true ∧ tok.claims.exp ≤ now := by
  simp only [parseWithClaims] at h
  split at h
  · simp only [Except.error.injEq] at h
    subst h
    simp [JWTParseError.isExpired] at he
  · split at h
    · simp only [Except.error.injEq] at h
      subst h
      simp [JWTParseError.isExpired] at he
    · split at h
      · rename_i h1 h2 h3
        simp only [Except.error.injEq] at h
        subst h
        simp only [JWTParseError.isExpired, decide_eq_true_eq] at he
        exact ⟨by simpa using h2, he⟩
      · exact Except.noConfusion h

/-- Inversion for a successful `ValidateToken`: signature verified, account
active, and the returned claims are the token's. -/
theorem validateToken_ok_inv {m : JWTManager} {now : Nat} {tok : JWTToken} {c : JWTClaims}
    (h : m.ValidateToken now tok = .ok c) :
    c = tok.claims ∧ verifySig tok m.secretKey = true ∧ tok.claims.isActive = true := by
  simp only [JWTManager.ValidateToken] at h
  split at h
  · split at h <;> exact Except.noConfusion h
  · rename_i t heq
    obtain ⟨rfl, hsig, -, -⟩ := parseWithClaims_ok_inv heq
    split at h
    · exact Except.noConfusion h
    · rename_i hac
      simp only [Except.ok.injEq] at h
      exact ⟨h.symm, hsig, by simpa using hac⟩

/-- Inversion for `ValidateToken` reporting `ErrExpiredToken`: the
signature verified and the token was expired. -/
theorem validateToken_expired_inv {m : JWTManager} {now : Nat} {tok : JWTToken}
    (h : m.ValidateToken now tok = .error .expiredToken) :
    verifySig tok m.secretKey = true ∧ tok.claims.exp ≤ now := by
  simp only [JWTManager.ValidateToken] at h
  split at h
  · rename_i e heq
    split at h
    · rename_i hex
      exact parseWithClaims_expired_inv heq hex
    · injection h with h
      exact ValidateError.noConfusion h
  · split at h
    · injection h with h
      exact ValidateError.noConfusion h
    · exact Except.noConfusion h

/-- **C1 counterexample.** The claim says a token whose embedded
`is_active` is false is never refreshable, expired or not. On the concrete
expired inactive token, `RefreshToken` at time 60 (past the expiry 50)
succeeds and mints a fresh token — still carrying `is_active = false`:
expiry is detected before the activity check, so the refresh falls into
the expired-token path, which never looks at `is_active`. -/
theorem refreshToken_expired_inactive_succeeds :
    mSample.RefreshToken 60 tokInactiveExpiredSample =
      .ok (mSample.GenerateToken 60 9 "i@b.c" "sub9" "bob" false) := by rfl

/-- **C1 (amended).** A refresh can succeed only if the token's signature
verifies under the manager's secret (a tampered signature is never
refreshable, expired or not), and only if an inactive-account snapshot is
accompanied by expiry: a *non-expired* token with `is_active = false` is
never refreshable. (An expired inactive token *is* refreshed — see the
counterexample.) -/
theorem refreshToken_gate (m : JWTManager) (now : Nat) (tok t : JWTToken)
    (h : m.RefreshToken now tok = .ok t) :
    verifySig tok m.secretKey = true ∧
      (tok.claims.isActive = false → tok.claims.exp ≤ now) := by
  simp only [JWTManager.RefreshToken] at h
  split at h
  · rename_i c heq
    obtain ⟨-, hsig, hact⟩ := validateToken_ok_inv heq
    exact ⟨hsig, fun hfalse => by rw [hact] at hfalse; cases hfalse⟩
  · rename_i e heq
    split at h
    · rename_i he
      subst he
      obtain ⟨hsig, hexp⟩ := validateToken_expired_inv heq
      exact ⟨hsig, fun _ => hexp⟩
    · exact Except.noConfusion h

/-- Witness for C1 (amended) at the concrete expired inactive token. -/
theorem refreshToken_gate_witness :
    verifySig tokInactiveExpiredSample mSample.secretKey = true ∧
      (tokInactiveExpiredSample.claims.isActive = false →
        tokInactiveExpiredSample.claims.exp ≤ 60) :=
  refreshToken_gate mSample 60 tokInactiveExpiredSample
    (mSample.GenerateToken 60 9 "i@b.c" "sub9" "bob" false) (by rfl)

/-- **C2 counterexample.** The claim says any algorithm other than the
configured HS256 is rejected. A token signed with HS384 under the same
secret is *accepted*: the keyfunc admits the whole `SigningMethodHMAC`
family. -/
theorem validateToken_accepts_HS384 :
    mSample.ValidateToken 500 tokHS384Sample = .ok claimsActiveSample := by rfl

/-- **C2 (amended).** `ValidateToken` rejects with `ErrInvalidToken` every
token whose header algorithm is outside the HMAC family (e.g. RS256,
ES256, none), whatever its claims; HMAC-family tokens (HS256/HS384/HS512)
correctly signed under the same secret are accepted. -/
theorem validateToken_rejects_nonHMAC (m : JWTManager) (now : Nat) (tok : JWTToken)
    (h : tok.alg.isHMAC = false) : m.ValidateToken now tok = .error .invalidToken := by
  simp [JWTManager.ValidateToken, parseWithClaims, h, JWTParseError.isExpired]

/-- Witness for C2 (amended) at the concrete RS256 token. -/
theorem validateToken_rejects_nonHMAC_witness :
    mSample.ValidateToken 500 tokRS256Sample = .error .invalidToken :=
  validateToken_rejects_nonHMAC mSample 500 tokRS256Sample rfl

/-- **C5 counterexample.** The round-trip claim quantifies over every
`isActive`; it fails at `isActive = false`: a freshly minted inactive
token is rejected by `ValidateToken` ("user account is not active")
instead of returning its claims. -/
theorem validateToken_fresh_inactive :
    mSample.ValidateToken 10 (mSample.GenerateToken 0 7 "a@b.c" "sub7" "alice" false) =
      .error .accountNotActive := by rfl

/-- **C5 (amended).** For every identity tuple with `isActive = true`,
validating a freshly minted token at any instant inside its validity
window (`iat ≤ now' < exp`) with the same secret succeeds and returns
exactly the minted claims, timing fields included. -/
theorem validate_generateToken_roundtrip (m : JWTManager) (now now' : Nat) (userID : Int)
    (email oidcSub username : String) (h1 : now ≤ now') (h2 : now' < now + m.tokenDuration) :
    m.ValidateToken now' (m.GenerateToken now userID email oidcSub username true) =
      .ok { userID := userID, email := email, oidcSub := oidcSub,
            username := username, isActive := true,
            exp := now + m.tokenDuration, iat := now, nbf := now } := by
  have hexp : ¬ (now + m.tokenDuration ≤ now') := by omega
  have hnbf : ¬ (now' < now) := by omega
  simp [JWTManager.ValidateToken, JWTManager.GenerateToken, parseWithClaims, verifySig,
    JWTAlg.isHMAC, hexp, hnbf]

/-- Witness for C5 (amended) at a concrete active tuple, validated at 10
inside the window `[0, 3600)`. -/
theorem validate_generateToken_roundtrip_witness :
    mSample.ValidateToken 10 (mSample.GenerateToken 0 7 "a@b.c" "sub7" "alice" true) =
      .ok { userID := 7, email := "a@b.c", oidcSub := "sub7",
            username := "alice", isActive := true,
            exp := 0 + 3600, iat := 0, nbf := 0 } :=
  validate_generateToken_roundtrip mSample 0 10 7 "a@b.c" "sub7" "alice" (by omega) (by decide)

/-! ## User directory (`user.Service` over the sqlc queries in `user.sql`)

The `users` table is a list of rows; `LIMIT 1` lookups are `List.find?`.
`pgtype.Text` / `pgtype.Bool` carry their validity flag as in pgx. -/

structure PgText where
  string : String
  valid : Bool
deriving DecidableEq, Repr

structure PgBool where
  bool : Bool
  valid : Bool
deriving DecidableEq, Repr

/-- A row of the `users` table as sqlc generates it (fields relevant to
the auth core). -/
structure DbUser where
  id : Int
  email : PgText
  oidcSub : String
  username : String
  isActive : PgBool
  trustPoints : Int
  createdAt : Nat
deriving DecidableEq, Repr

/-- `GetUserByOIDCSub`: `SELECT * FROM users WHERE oidc_sub = $1 LIMIT 1`
(error when no row, modelled as `none`). -/
def GetUserByOIDCSub (db : List DbUser) (sub : String) : Option DbUser :=
  db.find? (fun u => decide (u.oidcSub = sub))

/-- `GetActiveUserByOIDCSub`: adds `AND is_active = TRUE` (a NULL
`is_active` is not `TRUE`). -/
def GetActiveUserByOIDCSub (db : List DbUser) (sub : String) : Option DbUser :=
  db.find? (fun u => decide (u.oidcSub = sub) && u.isActive.valid && u.isActive.bool)

/-- `CreateUserFromOIDC`: `INSERT ... VALUES ($1,$2,$3,FALSE,0) RETURNING *`
with the email validity flag set as the Go caller does
(`pgtype.Text{String: email, Valid: email != ""}`); the serial id is the
next fresh id. -/
def CreateUserFromOIDC (db : List DbUser) (now : Nat) (sub username email : String) :
    DbUser × List DbUser :=
  let newUser : DbUser :=
    { id := (db.map DbUser.id).foldr max 0 + 1, email := ⟨email, decide (email ≠ "")⟩,
      oidcSub := sub, username := username, isActive := ⟨false, true⟩,
      trustPoints := 0, createdAt := now }
  (newUser, db ++ [newUser])

/-- `user.Service.GetOrCreateOIDCUser`: return the existing row for the
subject if there is one (flag false), otherwise insert a fresh inactive
row (flag true). Returns the row, the `isNewlyCreated` flag, and the
resulting table. -/
def Service.GetOrCreateOIDCUser (db : List DbUser) (now : Nat)
    (oidcSub username email : String) : (DbUser × Bool) × List DbUser :=
  match GetUserByOIDCSub db oidcSub with
  | some u => ((u, false), db)
  | none =>
      let created := CreateUserFromOIDC db now oidcSub username email
      ((created.1, true), created.2)

/-- **C7.** `GetOrCreateOIDCUser` is idempotent with respect to account
existence: when a row with the subject exists (active or not — the lookup
does not filter on `is_active`), that row is returned with
`isNewlyCreated = false` and the table is unchanged; the no-row case is
exactly "no user in the table has this subject", and then a new row is
appended and returned with `isNewlyCreated = true`, created inactive
(`is_active = FALSE`, and `trust_points = 0`). -/
theorem getOrCreateOIDCUser_idempotent (db : List DbUser) (now : Nat)
    (sub username email : String) :
    (∀ u, GetUserByOIDCSub db sub = some u →
      Service.GetOrCreateOIDCUser db now sub username email = ((u, false), db)) ∧
    (GetUserByOIDCSub db sub = none ↔ ∀ u ∈ db, u.oidcSub ≠ sub) ∧
    (GetUserByOIDCSub db sub = none →
      ∃ nu, Service.GetOrCreateOIDCUser db now sub username email = ((nu, true), db ++ [nu]) ∧
        nu.isActive = ⟨false, true⟩ ∧ nu.trustPoints = 0 ∧ nu.oidcSub = sub ∧
        nu.username = username) := by
  refine ⟨?_, ?_, ?_⟩
  · intro u hu
    simp [Service.GetOrCreateOIDCUser, hu]
  · simp [GetUserByOIDCSub, List.find?_eq_none]
  · intro hnone
    refine ⟨(CreateUserFromOIDC db now sub username email).1, ?_, rfl, rfl, rfl, rfl⟩
    simp [Service.GetOrCreateOIDCUser, hnone, CreateUserFromOIDC]

/-- Witness for C7: on the empty table, a fresh inactive row is created. -/
theorem getOrCreateOIDCUser_idempotent_witness :
    ∃ nu, Service.GetOrCreateOIDCUser [] 0 "s" "alice" "" = ((nu, true), [] ++ [nu]) ∧
      nu.isActive = ⟨false, true⟩ ∧ nu.trustPoints = 0 ∧ nu.oidcSub = "s" ∧
      nu.username = "alice" :=
  (getOrCreateOIDCUser_idempotent [] 0 "s" "alice" "").2.2 rfl

/-! ## Flow handlers (`internal/auth/handler.go`)

Each handler is a pure function of an environment record holding what the
request carries (query parameters, headers, session) together with the
collaborator interfaces the handler calls (OIDC service, user service),
given as response oracles — the handler sees them only through interface
types. The result records the HTTP response plus, for the proofs, which
collaborator calls were made and the session left behind (the session
store is updated only when `session.Save` succeeds). -/

/-- Opaque handle for the `*oauth2.Token` the exchange returns. -/
structure OAuthToken where
  id : Nat
deriving DecidableEq, Repr

/-- Opaque handle for the verified `*oidc.IDToken`. -/
structure IDToken where
  id : Nat
deriving DecidableEq, Repr

/-- A JSON claim value as the handler inspects it: a string, or anything
else (on which the `.(string)` type assertion fails). -/
inductive ClaimVal
  | str (s : String)
  | other
deriving DecidableEq, Repr

/-- The browser session keys Login stores; `none` is an absent key
(`session.Get` returning nil, which compares unequal to any string). -/
structure Session where
  state : Option String
  codeVerifier : Option String
deriving DecidableEq, Repr

/-- The errors `user.Service.ValidateOIDCLogin` can return. -/
inductive UserServiceError
  | notActive
  | notAllowed
  | other
deriving DecidableEq, Repr

structure CallbackEnv where
  authConfigured : Bool
  userConfigured : Bool
  qState : String
  qCode : String
  session : Session
  exchangeCodeWithPKCE : String → String → Except Unit OAuthToken
  verifyIDToken : OAuthToken → Except Unit IDToken
  extractClaims : IDToken → Except Unit (List (String × ClaimVal))
  validateOIDCLogin : String → Except UserServiceError DbUser
  getOrCreateOIDCUser : String → String → String → Except Unit (DbUser × Bool)
  jwt : JWTManager
  now : Nat
  sessionSaveOk : Bool

structure CallbackResult where
  status : Nat
  success : Bool
  errMsg : String
  accessToken : Option JWTToken
  expiresIn : Option Nat
  userOut : Option DbUser
  sessionAfter : Session
  exchangeCalled : Bool
  lookupCalled : Bool
  provisionCalled : Bool

/-- An error response from Callback: `response.Error` leaves the session
as it was; the flags record which collaborator calls had happened. -/
def cbErr (env : CallbackEnv) (status : Nat) (msg : String) (ex lk pv : Bool) :
    CallbackResult :=
  ⟨status, false, msg, none, none, none, env.session, ex, lk, pv⟩

/-- `profile[k]` on the decoded claims map. -/
def lookupClaim (profile : List (String × ClaimVal)) (k : String) : Option ClaimVal :=
  (profile.find? (fun p => decide (p.1 = k))).map Prod.snd

/-- `v, _ := profile[k].(string)`: the string value, or the zero value ""
when the key is absent or not a string. -/
def strClaim (profile : List (String × ClaimVal)) (k : String) : String :=
  match lookupClaim profile k with
  | some (.str s) => s
  | _ => ""

/-- The username fallback chain of the auto-registration branch:
`nickname`, then `name`, then the raw subject. -/
def fallbackNickname (profile : List (String × ClaimVal)) (oidcSub : String) : String :=
  let nickname0 := strClaim profile "nickname"
  let nickname1 := if nickname0 = "" then strClaim profile "name" else nickname0
  if nickname1 = "" then oidcSub else nickname1

/-- `Handler.Callback`, line by line from `handler.go`: nil-service guard,
CSRF state check, PKCE-verifier check, code exchange, ID-token
verification, claim extraction, `sub` extraction, account gating, token
mint, session clearing (only reaching the store if `session.Save`
succeeds), success response with the hard-coded `expires_in`. The mint
itself cannot fail in the model, so the "Failed to generate access token"
branch has no counterpart. -/
def Handler.Callback (env : CallbackEnv) : CallbackResult :=
  if !env.authConfigured then
    cbErr env 503 "OIDC authentication is not configured. Please configure OIDC_ISSUER, OIDC_CLIENT_ID, OIDC_CLIENT_SECRET, and OIDC_REDIRECT_URL environment variables." false false false
  else if !(match env.session.state with
      | some s => decide (env.qState = s)
      | none => false) then
    cbErr env 400 "Invalid state parameter" false false false
  else match env.session.codeVerifier with
  | none => cbErr env 400 "Missing PKCE verifier" false false false
  | some verifier =>
    if verifier = "" then cbErr env 400 "Missing PKCE verifier" false false false
    else match env.exchangeCodeWithPKCE env.qCode verifier with
    | .error _ => cbErr env 401 "Failed to exchange authorization code" true false false
    | .ok token =>
      match env.verifyIDToken token with
      | .error _ => cbErr env 500 "Failed to verify ID token" true false false
      | .ok idToken =>
        match env.extractClaims idToken with
        | .error _ => cbErr env 500 "Failed to extract claims" true false false
        | .ok profile =>
          match lookupClaim profile "sub" with
          | some (.str oidcSub) =>
            if oidcSub = "" then
              cbErr env 500 "Invalid OIDC token: missing sub claim" true false false
            else if env.userConfigured then
              match env.validateOIDCLogin oidcSub with
              | .error .notActive =>
                  cbErr env 403 "Your account is pending approval. Please contact an administrator." true true false
              | .error .notAllowed =>
                  let email := strClaim profile "email"
                  let nickname := fallbackNickname profile oidcSub
                  match env.getOrCreateOIDCUser oidcSub nickname email with
                  | .error _ => cbErr env 500 "Failed to register user" true true true
                  | .ok created =>
                      if created.2 then
                        cbErr env 403 "Your account has been registered and is pending approval. Please contact an administrator." true true true
                      else
                        cbErr env 403 "Your account is not active. Please contact an administrator." true true true
              | .error .other => cbErr env 500 "Failed to validate user" true true false
              | .ok dbUser =>
                  let jwtToken := env.jwt.GenerateToken env.now dbUser.id dbUser.email.string
                    dbUser.oidcSub dbUser.username dbUser.isActive.bool
                  if env.sessionSaveOk then
                    { status := 200, success := true, errMsg := "",
                      accessToken := some jwtToken, expiresIn := some (86400 * 7),
                      userOut := some dbUser, sessionAfter := ⟨none, none⟩,
                      exchangeCalled := true, lookupCalled := true, provisionCalled := false }
                  else cbErr env 500 "Failed to clear session" true true false
            else cbErr env 500 "User service not configured" true false false
          | _ => cbErr env 500 "Invalid OIDC token: missing sub claim" true false false

/-- An active user row. -/
def dbUserSample : DbUser := ⟨2, ⟨"u@e.x", true⟩, "subX", "user2", ⟨true, true⟩, 0, 0⟩

/-- A Callback environment in which every step up to account gating
succeeds and the user service reports a pending (inactive) account. -/
def envPendingSample : CallbackEnv :=
  { authConfigured := true, userConfigured := true,
    qState := "st", qCode := "code",
    session := ⟨some "st", some "ver"⟩,
    exchangeCodeWithPKCE := fun _ _ => .ok ⟨0⟩,
    verifyIDToken := fun _ => .ok ⟨0⟩,
    extractClaims := fun _ => .ok [("sub", .str "subX")],
    validateOIDCLogin := fun _ => .error .notActive,
    getOrCreateOIDCUser := fun _ _ _ => .ok (dbUserSample, true),
    jwt := mSample, now := 0, sessionSaveOk := true }

/-- The same environment with the account lookup succeeding. -/
def envActiveSample : CallbackEnv :=
  { envPendingSample with validateOIDCLogin := fun _ => .ok dbUserSample }

/-- The same environment with a wrong `state` query parameter. -/
def envBadStateSample : CallbackEnv :=
  { envPendingSample with qState := "wrong" }

/-- The same environment with identity claims that carry no `sub`. -/
def envNoSubSample : CallbackEnv :=
  { envPendingSample with extractClaims := fun _ => .ok [("email", .str "e@x")] }

/-- **C3 counterexample.** The claim says the stored attempt state is
cleared on every Callback that reaches account gating. In the concrete
pending-approval environment the request reaches gating (the lookup is
called) and is answered 403 — yet the session still holds the original
state and verifier, and a replayed Callback with the same state passes
the CSRF guard again and re-runs the code exchange. -/
theorem callback_pending_keeps_attempt :
    (Handler.Callback envPendingSample).status = 403 ∧
      (Handler.Callback envPendingSample).lookupCalled = true ∧
      (Handler.Callback envPendingSample).sessionAfter = envPendingSample.session ∧
      (Handler.Callback { envPendingSample with
        session := (Handler.Callback envPendingSample).sessionAfter }).exchangeCalled = true :=
  ⟨rfl, rfl, rfl, rfl⟩

/-- **C3 (amended).** The stored AuthorizationAttempt is cleared exactly
on the fully successful Callback: when the response is the 200 success,
the session keys are gone; on every failure outcome — including the
pending-approval and not-allowed gating outcomes — the stored session is
left untouched, so such a Callback is replayable. -/
theorem callback_clears_attempt_iff_success (env : CallbackEnv) :
    ((Handler.Callback env).success = true →
      (Handler.Callback env).sessionAfter = ⟨none, none⟩) ∧
    ((Handler.Callback env).success = false →
      (Handler.Callback env).sessionAfter = env.session) := by
  unfold Handler.Callback
  split
  · simp [cbErr]
  · split
    · simp [cbErr]
    · split
      · simp [cbErr]
      · split
        · simp [cbErr]
        · split
          · simp [cbErr]
          · split
            · simp [cbErr]
            · split
              · simp [cbErr]
              · rename_i profile heqProfile
                split
                · rename_i oidcSub heqSub
                  split
                  · simp [cbErr]
                  · split
                    · split
                      · simp [cbErr]
                      · cases hgc : env.getOrCreateOIDCUser oidcSub
                          (fallbackNickname profile oidcSub) (strClaim profile "email") with
                        | error e => simp [hgc, cbErr]
                        | ok created =>
                            simp only [hgc]
                            split <;> simp [cbErr]
                      · simp [cbErr]
                      · split
                        · simp
                        · simp [cbErr]
                    · simp [cbErr]
                · simp [cbErr]

/-- Witness for C3 (amended): the fully successful Callback clears both
session keys. -/
theorem callback_clears_attempt_iff_success_witness :
    (Handler.Callback envActiveSample).sessionAfter = ⟨none, none⟩ :=
  (callback_clears_attempt_iff_success envActiveSample).1 (by rfl)

/-- The CSRF/PKCE guard of Callback: the `state` query parameter equals
the stored state, and a non-empty verifier is stored. -/
def callbackGuardOK (env : CallbackEnv) : Bool :=
  (match env.session.state with
    | some s => decide (env.qState = s)
    | none => false) &&
  (match env.session.codeVerifier with
    | some v => decide (v ≠ "")
    | none => false)

/-- **C4.** With the OIDC service configured, a Callback whose guard fails
(state mismatch, or missing/empty verifier) is answered with HTTP 400,
`success:false`, and no code exchange is performed; conversely the code
exchange is reached only when the guard holds. -/
theorem callback_csrf_guard (env : CallbackEnv) (hauth : env.authConfigured = true) :
    (callbackGuardOK env = false →
      (Handler.Callback env).status = 400 ∧ (Handler.Callback env).success = false ∧
        (Handler.Callback env).exchangeCalled = false) ∧
    ((Handler.Callback env).exchangeCalled = true → callbackGuardOK env = true) := by
  obtain ⟨auth, usr, qs, qc, ⟨st, cv⟩, exch, vfy, extr, vall, getc, jwtm, now, sok⟩ := env
  simp only at hauth
  subst hauth
  cases st with
  | none => simp [Handler.Callback, callbackGuardOK, cbErr]
  | some s =>
    cases cv with
    | none =>
        by_cases hs : qs = s <;> simp [Handler.Callback, callbackGuardOK, cbErr, hs]
    | some v =>
        by_cases hs : qs = s
        · by_cases hv : v = ""
          · simp [Handler.Callback, callbackGuardOK, cbErr, hs, hv]
          · simp [Handler.Callback, callbackGuardOK, hs, hv]
        · simp [Handler.Callback, callbackGuardOK, cbErr, hs]

/-- Witness for C4 at the concrete wrong-state environment. -/
theorem callback_csrf_guard_witness :
    (Handler.Callback envBadStateSample).status = 400 ∧
      (Handler.Callback envBadStateSample).success = false ∧
      (Handler.Callback envBadStateSample).exchangeCalled = false :=
  (callback_csrf_guard envBadStateSample rfl).1 (by decide)

/-- Whether a decoded claim map holds a non-empty string `sub`. -/
def hasNonemptyStrSub (profile : List (String × ClaimVal)) : Bool :=
  match lookupClaim profile "sub" with
  | some (.str s) => decide (s ≠ "")
  | _ => false

theorem hasNonemptyStrSub_of {profile : List (String × ClaimVal)} {s : String}
    (h2 : lookupClaim profile "sub" = some (.str s)) (hne : s ≠ "") :
    hasNonemptyStrSub profile = true := by
  simp [hasNonemptyStrSub, h2, hne]

/-- **C6.** If the identity claims the OIDC service would extract never
carry a non-empty string `sub`, the Callback fails (`success:false`) and
neither the account lookup (`ValidateOIDCLogin`) nor account creation
(`GetOrCreateOIDCUser`) is ever called. -/
theorem callback_missing_sub (env : CallbackEnv)
    (hsub : ∀ t profile, env.extractClaims t = .ok profile →
      hasNonemptyStrSub profile = false) :
    (Handler.Callback env).success = false ∧
      (Handler.Callback env).lookupCalled = false ∧
      (Handler.Callback env).provisionCalled = false := by
  unfold Handler.Callback
  split
  · exact ⟨rfl, rfl, rfl⟩
  · split
    · exact ⟨rfl, rfl, rfl⟩
    · split
      · exact ⟨rfl, rfl, rfl⟩
      · split
        · exact ⟨rfl, rfl, rfl⟩
        · split
          · exact ⟨rfl, rfl, rfl⟩
          · split
            · exact ⟨rfl, rfl, rfl⟩
            · split
              · exact ⟨rfl, rfl, rfl⟩
              · rename_i profile heq
                have hfalse := hsub _ _ heq
                split
                · rename_i oidcSub heq2
                  split
                  · exact ⟨rfl, rfl, rfl⟩
                  · rename_i hne
                    rw [hasNonemptyStrSub_of heq2 hne] at hfalse
                    exact Bool.noConfusion hfalse
                · exact ⟨rfl, rfl, rfl⟩

/-- Witness for C6 at the concrete sub-less claim map. -/
theorem callback_missing_sub_witness :
    (Handler.Callback envNoSubSample).success = false ∧
      (Handler.Callback envNoSubSample).lookupCalled = false ∧
      (Handler.Callback envNoSubSample).provisionCalled = false :=
  callback_missing_sub envNoSubSample
    (by intro t profile h; injection h with h; rw [← h]; rfl)

/-! ## Logout handler

`url.Parse` of the configured end-session URL happens per request inside
`GetEndSessionURL`; its outcome is fixed by the configuration, so it is an
environment field (`url.Parse` in Go does fail on some strings, e.g. an
invalid percent-escape such as "%zz"). The request's bearer token is in
the environment but the handler never reads it. -/

structure LogoutEnv where
  authConfigured : Bool
  postLogoutRedirect : String
  endSessionURL : String
  endSessionParse : Except Unit String
  reqTLS : Bool
  reqHost : String
  authHeader : String

structure LogoutResult where
  status : Nat
  success : Bool
  message : String
  logoutURL : Option String
deriving DecidableEq, Repr

/-- The end-session URL with its query parameters appended (the
percent-encoding details of `url.Values.Encode` are immaterial to the
claims; only the string's presence is). -/
def buildEndSessionURL (parsed returnTo idTokenHint : String) : String :=
  parsed ++ "?" ++
    (if returnTo = "" then "" else "post_logout_redirect_uri=" ++ returnTo) ++
    (if idTokenHint = "" then "" else "&id_token_hint=" ++ idTokenHint)

/-- `Service.GetEndSessionURL`: no endpoint configured reports
unavailable (not an error); a configured endpoint that fails `url.Parse`
is an error; otherwise the built URL with availability true. -/
def Service.GetEndSessionURL (env : LogoutEnv) (returnTo idTokenHint : String) :
    Except Unit (String × Bool) :=
  if env.endSessionURL = "" then .ok ("", false)
  else match env.endSessionParse with
  | .error _ => .error ()
  | .ok parsed => .ok (buildEndSessionURL parsed returnTo idTokenHint, true)

/-- `Handler.Logout`: unconfigured service short-circuits to success; the
return URL prefers the configured post-logout redirect, else
scheme+host; a `GetEndSessionURL` error is a 500; otherwise 200 with the
logout URL exactly when available. -/
def Handler.Logout (env : LogoutEnv) : LogoutResult :=
  if !env.authConfigured then ⟨200, true, "Logged out successfully", none⟩
  else
    let r0 := env.postLogoutRedirect
    let returnTo := if r0 = "" then
        (if env.reqTLS then "https" else "http") ++ "://" ++ env.reqHost
      else r0
    match Service.GetEndSessionURL env returnTo "" with
    | .error _ => ⟨500, false, "Failed to build logout URL", none⟩
    | .ok res =>
        if res.2 then ⟨200, true, "Logged out successfully", some res.1⟩
        else ⟨200, true, "Logged out successfully", none⟩

/-- A deployment whose configured end-session URL does not parse
(`OIDC_END_SESSION_URL="%zz"` — an invalid URL escape for `url.Parse`). -/
def logoutEnvBadURL : LogoutEnv :=
  { authConfigured := true, postLogoutRedirect := "", endSessionURL := "%zz",
    endSessionParse := .error (), reqTLS := false, reqHost := "example.com",
    authHeader := "" }

/-- The same deployment with a well-formed end-session URL. -/
def logoutEnvOkURL : LogoutEnv :=
  { logoutEnvBadURL with
      endSessionURL := "https://op.example/logout",
      endSessionParse := .ok "https://op.example/logout" }

/-- **C9 counterexample.** The claim says every Logout request is answered
HTTP 200. In a deployment whose configured end-session URL fails
`url.Parse`, every Logout request is answered 500 "Failed to build logout
URL" — independently of any bearer token. -/
theorem logout_parse_error_500 :
    (Handler.Logout logoutEnvBadURL).status = 500 ∧
      (Handler.Logout logoutEnvBadURL).success = false :=
  ⟨rfl, rfl⟩

/-- **C9 (amended).** Whenever the configured end-session URL is absent or
parseable (every deployment except a malformed `OIDC_END_SESSION_URL`),
Logout responds 200 success, with a `logout_url` exactly when the service
is configured with an end-session endpoint; and the response never
depends on the Authorization header — the handler does not read it. -/
theorem logout_always_ok (env : LogoutEnv)
    (h : env.authConfigured = false ∨ env.endSessionURL = "" ∨
      ∃ p, env.endSessionParse = .ok p) :
    (Handler.Logout env).status = 200 ∧ (Handler.Logout env).success = true ∧
      ((Handler.Logout env).logoutURL.isSome ↔
        (env.authConfigured = true ∧ env.endSessionURL ≠ "")) ∧
      (∀ hdr, Handler.Logout { env with authHeader := hdr } = Handler.Logout env) := by
  refine ?_
  have hindep : ∀ hdr, Handler.Logout { env with authHeader := hdr } = Handler.Logout env :=
    fun _ => rfl
  by_cases hauth : env.authConfigured
  · rcases h with hna | hurl | ⟨p, hp⟩
    · rw [hna] at hauth; cases hauth
    · refine ⟨?_, ?_, ?_, hindep⟩ <;>
        simp [Handler.Logout, Service.GetEndSessionURL, hurl, hauth]
    · by_cases hurl : env.endSessionURL = ""
      · refine ⟨?_, ?_, ?_, hindep⟩ <;>
          simp [Handler.Logout, Service.GetEndSessionURL, hurl, hauth]
      · refine ⟨?_, ?_, ?_, hindep⟩ <;>
          simp [Handler.Logout, Service.GetEndSessionURL, hurl, hauth, hp]
  · refine ⟨?_, ?_, ?_, hindep⟩ <;>
      simp [Handler.Logout, hauth]

/-- Witness for C9 (amended) at the parseable-endpoint deployment. -/
theorem logout_always_ok_witness :
    (Handler.Logout logoutEnvOkURL).status = 200 ∧
      (Handler.Logout logoutEnvOkURL).success = true ∧
      ((Handler.Logout logoutEnvOkURL).logoutURL.isSome ↔
        (logoutEnvOkURL.authConfigured = true ∧ logoutEnvOkURL.endSessionURL ≠ "")) ∧
      (∀ hdr, Handler.Logout { logoutEnvOkURL with authHeader := hdr } =
        Handler.Logout logoutEnvOkURL) :=
  logout_always_ok logoutEnvOkURL (.inr (.inr ⟨"https://op.example/logout", rfl⟩))

/-! ## Refresh handler

The compact serialization layer between the header string and the
structured token is the `decodeJWT` oracle (a garbage remainder fails to
parse; a well-formed one yields its token). -/

structure RefreshEnv where
  jwt : JWTManager
  now : Nat
  authHeader : String
  decodeJWT : String → Except Unit JWTToken

structure RefreshResult where
  status : Nat
  success : Bool
  errMsg : String
  accessToken : Option JWTToken
  expiresIn : Option Nat

/-- `Handler.RefreshToken`: missing header and non-Bearer header are 401;
then the token after "Bearer " is refreshed, any failure is 401, success
is 200 with the new token and the hard-coded `expires_in`. -/
def Handler.RefreshToken (env : RefreshEnv) : RefreshResult :=
  if env.authHeader = "" then
    ⟨401, false, "Authorization header required", none, none⟩
  else if !(decide (7 ≤ env.authHeader.length) &&
      decide (env.authHeader.take 7 = "Bearer ")) then
    ⟨401, false, "Invalid authorization header format", none, none⟩
  else
    match env.decodeJWT (env.authHeader.drop 7) with
    | .error _ => ⟨401, false, "Failed to refresh token", none, none⟩
    | .ok oldTok =>
      match env.jwt.RefreshToken env.now oldTok with
      | .error _ => ⟨401, false, "Failed to refresh token", none, none⟩
      | .ok newTok => ⟨200, true, "", some newTok, some (86400 * 7)⟩

/-- Every token `RefreshToken` mints expires at `now + duration`. -/
theorem refreshToken_ok_exp {m : JWTManager} {now : Nat} {tok t : JWTToken}
    (h : m.RefreshToken now tok = .ok t) : t.claims.exp = now + m.tokenDuration := by
  simp only [JWTManager.RefreshToken] at h
  split at h
  · simp only [Except.ok.injEq] at h
    rw [← h]
    rfl
  · split at h
    · split at h
      · exact Except.noConfusion h
      · simp only [Except.ok.injEq] at h
        rw [← h]
        rfl
    · exact Except.noConfusion h

/-- A successful Callback response carries `expires_in = 86400*7` and a
token that actually expires at `now + duration`. -/
theorem callback_success_expiry (env : CallbackEnv)
    (h : (Handler.Callback env).success = true) :
    (Handler.Callback env).expiresIn = some 604800 ∧
      ∃ t, (Handler.Callback env).accessToken = some t ∧
        t.claims.exp = env.now + env.jwt.tokenDuration := by
  revert h
  unfold Handler.Callback
  split
  · simp [cbErr]
  · split
    · simp [cbErr]
    · split
      · simp [cbErr]
      · split
        · simp [cbErr]
        · split
          · simp [cbErr]
          · split
            · simp [cbErr]
            · split
              · simp [cbErr]
              · rename_i profile heqProfile
                split
                · rename_i oidcSub heqSub
                  split
                  · simp [cbErr]
                  · split
                    · split
                      · simp [cbErr]
                      · cases hgc : env.getOrCreateOIDCUser oidcSub
                          (fallbackNickname profile oidcSub) (strClaim profile "email") with
                        | error e => simp [hgc, cbErr]
                        | ok created =>
                            simp only [hgc]
                            split <;> simp [cbErr]
                      · simp [cbErr]
                      · split
                        · intro _
                          refine ⟨by norm_num, ⟨_, rfl, rfl⟩⟩
                        · simp [cbErr]
                    · simp [cbErr]
                · simp [cbErr]

/-- A successful Refresh response carries `expires_in = 86400*7` and a
token that actually expires at `now + duration`. -/
theorem refresh_success_expiry (env : RefreshEnv)
    (h : (Handler.RefreshToken env).success = true) :
    (Handler.RefreshToken env).expiresIn = some 604800 ∧
      ∃ t, (Handler.RefreshToken env).accessToken = some t ∧
        t.claims.exp = env.now + env.jwt.tokenDuration := by
  revert h
  unfold Handler.RefreshToken
  split
  · simp
  · split
    · simp
    · split
      · simp
      · split
        · simp
        · rename_i newTok heq
          intro _
          exact ⟨by norm_num, ⟨newTok, rfl, refreshToken_ok_exp heq⟩⟩

/-- **C10.** For every configured JWT duration, a successful Callback and
a successful Refresh both report `expires_in = 604800` (the hard-coded
`86400 * 7`), even though the token they return embeds the actual expiry
`now + duration` — which differs whenever the configured duration is not
seven days. -/
theorem expiresIn_hardcoded (cbEnv : CallbackEnv) (rEnv : RefreshEnv) :
    ((Handler.Callback cbEnv).success = true →
      (Handler.Callback cbEnv).expiresIn = some 604800 ∧
        ∃ t, (Handler.Callback cbEnv).accessToken = some t ∧
          t.claims.exp = cbEnv.now + cbEnv.jwt.tokenDuration) ∧
    ((Handler.RefreshToken rEnv).success = true →
      (Handler.RefreshToken rEnv).expiresIn = some 604800 ∧
        ∃ t, (Handler.RefreshToken rEnv).accessToken = some t ∧
          t.claims.exp = rEnv.now + rEnv.jwt.tokenDuration) :=
  ⟨callback_success_expiry cbEnv, refresh_success_expiry rEnv⟩

/-- An HS256 token over the active sample claims, used as a valid bearer
token for the refresh witness. -/
def tokHS256Sample : JWTToken :=
  ⟨.HS256, claimsActiveSample, hmacSign .HS256 "topsecret" claimsActiveSample⟩

/-- A refresh request carrying a valid bearer token, under the sample
manager whose duration is 3600 seconds — not seven days. -/
def refreshEnvSample : RefreshEnv :=
  { jwt := mSample, now := 0, authHeader := "Bearer x",
    decodeJWT := fun _ => .ok tokHS256Sample }

/-- Witness for C10: with a configured duration of 3600 s, both success
responses still report 604800 while the minted tokens expire at
`now + 3600`. -/
theorem expiresIn_hardcoded_witness :
    ((Handler.Callback envActiveSample).expiresIn = some 604800 ∧
      ∃ t, (Handler.Callback envActiveSample).accessToken = some t ∧
        t.claims.exp = envActiveSample.now + envActiveSample.jwt.tokenDuration) ∧
    ((Handler.RefreshToken refreshEnvSample).expiresIn = some 604800 ∧
      ∃ t, (Handler.RefreshToken refreshEnvSample).accessToken = some t ∧
        t.claims.exp = refreshEnvSample.now + refreshEnvSample.jwt.tokenDuration) :=
  ⟨(expiresIn_hardcoded envActiveSample refreshEnvSample).1 (by rfl),
   (expiresIn_hardcoded envActiveSample refreshEnvSample).2 (by rfl)⟩
